import Mathlib

/-!
# Verification of the news RAG backend (`app.py`, `rag_service.py`)

A shallow embedding of the retrieval orchestration pipeline of the
repository: intent extraction post-processing, date-filter compilation,
vector retrieval formatting, grounded-response context building, and the
two HTTP handlers with their API-key check and error logging.

External collaborators (the language model, the Qdrant vector store) are
modelled as explicit function parameters; the Python code that manipulates
their results is translated directly.
-/

namespace NewsRag

/-- A chat message `{"role": ..., "content": ...}` (app.py / rag_service.py). -/
structure ChatMessage where
  role : String
  content : String
deriving Repr, DecidableEq

/-! ## Date parsing: `datetime.strptime(s, "%Y-%m-%d")`

CPython's `_strptime` matches `%Y` as exactly four digits, `%m` as one or
two digits with value 1..12, `%d` as one or two digits with value 1..31,
with the literal `-` separators and the whole string consumed; the
`datetime` constructor then rejects year 0 and a day beyond the month's
length. -/

/-- A parsed calendar date. -/
structure Date where
  year : Nat
  month : Nat
  day : Nat
deriving Repr, DecidableEq

def isLeapYear (y : Nat) : Bool :=
  y % 4 == 0 && (y % 100 != 0 || y % 400 == 0)

def daysInMonth (y m : Nat) : Nat :=
  if m == 2 then (if isLeapYear y then 29 else 28)
  else if m == 4 || m == 6 || m == 9 || m == 11 then 30
  else 31

/-- Split a character list on `'-'` (the separators of the
`"%Y-%m-%d"` format), keeping empty groups, as `s.split("-")` would. -/
def splitOnDash : List Char → List (List Char)
  | [] => [[]]
  | c :: rest =>
    match splitOnDash rest, decide (c = '-') with
    | groups, true => [] :: groups
    | [], false => [[c]]
    | g :: gs, false => (c :: g) :: gs

/-- The numeric value of a decimal digit character, `none` otherwise. -/
def digitVal? (c : Char) : Option Nat :=
  if 48 ≤ c.toNat && c.toNat ≤ 57 then some (c.toNat - 48) else Option.none

/-- The value of a non-empty all-digit character group. -/
def digitsToNat? (cs : List Char) : Option Nat :=
  if cs.isEmpty then Option.none
  else cs.foldl (fun acc c =>
    match acc, digitVal? c with
    | some n, some d => some (n * 10 + d)
    | _, _ => Option.none) (some 0)

/-- `datetime.strptime(s, "%Y-%m-%d")`, returning `none` where Python
raises `ValueError`. -/
def parse_date (s : String) : Option Date :=
  match splitOnDash s.data with
  | [ys, ms, ds] =>
    match digitsToNat? ys, digitsToNat? ms, digitsToNat? ds with
    | some y, some m, some d =>
      if ys.length == 4 && 1 ≤ ms.length && ms.length ≤ 2
          && 1 ≤ ds.length && ds.length ≤ 2
          && 1 ≤ y && 1 ≤ m && m ≤ 12 && 1 ≤ d && d ≤ daysInMonth y m
      then some ⟨y, m, d⟩
      else none
    | _, _, _ => none
  | _ => none

/-! ## Filter compilation (`retrieve_news`, rag_service.py lines 193-226) -/

/-- The `date_filter` dict produced by extraction: each field records
whether the corresponding key is present and with which string value. -/
structure DateFilter where
  gte : Option String
  lte : Option String
deriving Repr, DecidableEq

/-- `models.DatetimeRange()` after the two `strptime` attempts: a bound is
set only when its string parsed. -/
structure DatetimeRange where
  gte : Option Date
  lte : Option Date
deriving Repr, DecidableEq

/-- `models.FieldCondition(key=..., range=...)`. -/
structure FieldCondition where
  key : String
  range : DatetimeRange
deriving Repr, DecidableEq

/-- `models.Filter(must=...)`. -/
structure Filter where
  must : List FieldCondition
deriving Repr, DecidableEq

/-- Python truthiness of the `date_filters` dict (`if date_filters:`):
true iff at least one key is present. -/
def DateFilter.nonEmpty (df : DateFilter) : Bool :=
  df.gte.isSome || df.lte.isSome

/-- Lines 193-226 of `retrieve_news`: build `must_conditions` from the
date bounds that parse, and produce `filter_condition` (`None` when no
condition was added). -/
def compile_date_filter (date_filters : DateFilter) : Option Filter :=
  let must_conditions : List FieldCondition :=
    if date_filters.nonEmpty then
      let g : Option Date :=
        match date_filters.gte with
        | some s => parse_date s
        | Option.none => Option.none
      let l : Option Date :=
        match date_filters.lte with
        | some s => parse_date s
        | Option.none => Option.none
      if g.isSome || l.isSome then [⟨"metadata.date", ⟨g, l⟩⟩] else []
    else []
  if must_conditions.isEmpty then Option.none else some ⟨must_conditions⟩

/-! ## Retrieval (`retrieve_news`, rag_service.py lines 228-244) -/

/-- A document as returned by `vector_store.similarity_search`. -/
structure StoreDoc where
  page_content : String
  metadata : List (String × String)
deriving Repr, DecidableEq

/-- The `{title, url, date}` dict appended to `news_articles`. -/
structure NewsArticle where
  title : String
  url : String
  date : String
deriving Repr, DecidableEq

/-- `doc.metadata.get(key)`: `some v` when the key is stored, else `none`. -/
def lookup_meta (metadata : List (String × String)) (key : String) : Option String :=
  (metadata.find? (fun p => p.1 == key)).map (fun p => p.2)

/-- Lines 236-242: format one store document into a news-article dict,
with the `"#"` and `"Unknown date"` defaults of `metadata.get`. -/
def format_doc (doc : StoreDoc) : NewsArticle :=
  { title := doc.page_content
    url := (lookup_meta doc.metadata "url").getD "#"
    date := (lookup_meta doc.metadata "date").getD "Unknown date" }

/-- The default of the `max_results` parameter of `retrieve_news`. -/
def DEFAULT_MAX_RESULTS : Nat := 5

/-- `retrieve_news(query, date_filters, max_results)`: compile the date
filter, run the similarity search (the store is an explicit parameter),
and format the results. -/
def retrieve_news (store : String → Option Filter → Nat → List StoreDoc)
    (query : String) (date_filters : DateFilter) (max_results : Nat) :
    List NewsArticle :=
  let filter_condition := compile_date_filter date_filters
  let results := store query filter_condition max_results
  results.map format_doc

/-- `retrieve_news` called without `max_results`, as both HTTP handlers
and `respond` do: `max_results` defaults to 5. -/
def retrieve_news_default (store : String → Option Filter → Nat → List StoreDoc)
    (query : String) (date_filters : DateFilter) : List NewsArticle :=
  retrieve_news store query date_filters DEFAULT_MAX_RESULTS

/-! ## Intent extraction post-processing
(`extract_queries_and_date_filters`, rag_service.py lines 92-114)

The language-model call is abstracted as its outcome after `json.loads`:
`none` when the response body is not valid JSON (`json.JSONDecodeError`),
`some v` with the decoded Python value otherwise. The dictionary
manipulation on lines 97-110 is translated operation by operation,
including the dynamic-typing errors Python raises when the decoded value
has an unexpected shape. -/

/-- A Python value as decoded from JSON. -/
inductive PyVal where
  | str (s : String)
  | int (n : Int)
  | list (elems : List PyVal)
  | dict (entries : List (String × PyVal))
  | null

/-- Exceptions the extraction body can raise besides `JSONDecodeError`. -/
inductive PyErr where
  | attributeError
  | typeError
  | keyError
deriving Repr, DecidableEq

/-- `v.get(key, default)`: only dicts have `.get`; any other receiver
raises `AttributeError`. -/
def pyGet (v : PyVal) (key : String) (default : PyVal) : Except PyErr PyVal :=
  match v with
  | PyVal.dict entries =>
    Except.ok (((entries.find? (fun p => p.1 == key)).map (fun p => p.2)).getD default)
  | _ => Except.error PyErr.attributeError

/-- `key in v`: key test for dicts, substring test for strings, membership
for lists; `in` on an int or `None` raises `TypeError`. -/
def pyContains (key : String) (v : PyVal) : Except PyErr Bool :=
  match v with
  | PyVal.dict entries => Except.ok (entries.any (fun p => p.1 == key))
  | PyVal.str s => Except.ok (decide (2 ≤ (s.splitOn key).length))
  | PyVal.list elems =>
    Except.ok (elems.any (fun e =>
      match e with
      | PyVal.str s => s == key
      | _ => false))
  | _ => Except.error PyErr.typeError

/-- `v[key]` with a string key: lookup for dicts (`KeyError` when absent);
indexing a string or list with a string raises `TypeError`, as does
subscripting an int or `None`. -/
def pyIndex (v : PyVal) (key : String) : Except PyErr PyVal :=
  match v with
  | PyVal.dict entries =>
    match entries.find? (fun p => p.1 == key) with
    | some p => Except.ok p.2
    | Option.none => Except.error PyErr.keyError
  | _ => Except.error PyErr.typeError

/-- The dict returned by `extract_queries_and_date_filters`: the verbatim
`queries` value, the `date_filter` dict, and the `'error'` key added only
by the `JSONDecodeError` fallback. -/
structure ExtractResult where
  queries : PyVal
  date_filter : List (String × PyVal)
  error : Option String

/-- `extract_queries_and_date_filters(messages)` with the model call
abstracted: `llmJson` is the `json.loads` outcome on the response body.
`Except.error` is an exception escaping the function (only
`json.JSONDecodeError` is caught, by the fallback branch). -/
def extract_queries_and_date_filters (_messages : List ChatMessage)
    (llmJson : Option PyVal) : Except PyErr ExtractResult :=
  match llmJson with
  | Option.none =>
    Except.ok ⟨PyVal.list [], [], some "JSONDecodeError"⟩
  | some extracted_data => do
    let queries ← pyGet extracted_data "queries" (PyVal.list [])
    let hasDateFilter ← pyContains "date_filter" extracted_data
    if hasDateFilter then
      let date_filter ← pyIndex extracted_data "date_filter"
      let hasGte ← pyContains "gte" date_filter
      let gteEntries ← if hasGte then do
          let v ← pyIndex date_filter "gte"
          pure [("gte", v)]
        else pure ([] : List (String × PyVal))
      let hasLte ← pyContains "lte" date_filter
      let lteEntries ← if hasLte then do
          let v ← pyIndex date_filter "lte"
          pure [("lte", v)]
        else pure ([] : List (String × PyVal))
      pure ⟨queries, gteEntries ++ lteEntries, Option.none⟩
    else
      pure ⟨queries, [], Option.none⟩

/-! ## Query selection (app.py lines 102-109, rag_service.py lines 247-266) -/

/-- The typed intent the pipeline consumes downstream: the extracted
query phrases and date filter. -/
structure ExtractedIntent where
  queries : List String
  date_filter : DateFilter
deriving Repr, DecidableEq

/-- `next((msg["content"] for msg in reversed(messages) if msg["role"] ==
"user"), "")`: content of the most recent user message, `""` if none. -/
def last_user_content (messages : List ChatMessage) : String :=
  ((messages.reverse.find? (fun m => m.role == "user")).map
    (fun m => m.content)).getD ""

/-- app.py lines 102-109: the query string `get_completion` passes to
`retrieve_news` is `last_message`; the extraction result supplies only the
date filter. -/
def get_completion_search_query (messages : List ChatMessage)
    (_extracted : ExtractedIntent) : String :=
  last_user_content messages

/-- rag_service.py lines 249-256: `respond` rebuilds the transcript from
the Gradio history pairs and appends the current message as a user turn. -/
def respond_messages (history : List (String × String)) (message : String) :
    List ChatMessage :=
  (history.map (fun h => [ChatMessage.mk "user" h.1, ChatMessage.mk "assistant" h.2])).flatten
    ++ [ChatMessage.mk "user" message]

/-- rag_service.py line 262: `" ".join(extracted["queries"]) if
extracted["queries"] else message`. -/
def respond_search_query (message : String) (extracted : ExtractedIntent) : String :=
  if extracted.queries.isEmpty then message
  else String.intercalate " " extracted.queries

/-! ## Grounded response context
(`generate_rag_response`, rag_service.py lines 133-136) -/

/-- The text appended to `context` for the document at 0-based position
`i`: `f"Source {i+1}: {news['title']}\nURL: {news['url']}\n\n"`. -/
def source_entry (i : Nat) (news : NewsArticle) : String :=
  "Source " ++ toString (i + 1) ++ ": " ++ news.title
    ++ "\nURL: " ++ news.url ++ "\n\n"

/-- Lines 133-136: `context = ""` then `for i, news in
enumerate(retrieved_news): context += f"Source {i+1}: ..."`. -/
def build_context (retrieved_news : List NewsArticle) : String :=
  (retrieved_news.enum).foldl (fun context p => context ++ source_entry p.1 p.2) ""

/-- Concatenation of a list of strings in order (specification-side view
of the context block as one entry per document). -/
def concat_all : List String → String
  | [] => ""
  | s :: rest => s ++ concat_all rest

/-! ## HTTP layer (app.py)

The handlers are modelled as functions from the request data and the
outcomes of their external calls (vector store, language model) to an
`HttpOutcome` recording the response status, the error detail, the
response body, and the question/answer log records appended by
`write_log`. FastAPI resolves the `Depends(get_api_key)` parameter before
the handler body runs, so the model checks the key first. -/

/-- `request.headers.get("x-api-key", "")` (app.py lines 49-50). -/
def get_api_key_header (headers : List (String × String)) : String :=
  ((headers.find? (fun p => p.1 == "x-api-key")).map (fun p => p.2)).getD ""

/-- `api_key != os.getenv("APP_API_KEY")` (app.py line 57): the configured
secret is `none` when the environment variable is unset, in which case the
string/None comparison is always unequal. -/
def api_key_mismatch (api_key : String) (app_api_key : Option String) : Bool :=
  match app_api_key with
  | some secret => api_key != secret
  | Option.none => true

/-- One `write_log(question, answer)` record (app.py lines 66-75). -/
structure LogRecord where
  question : String
  answer : String
deriving Repr, DecidableEq

/-- The observable outcome of one request: HTTP status, error detail (for
401/500), the successful response body if any, and the appended log
records. -/
structure HttpOutcome where
  status : Nat
  detail : String
  articles : Option (List NewsArticle)
  response : Option String
  logs : List LogRecord
deriving Repr, DecidableEq

/-- `str(e)` of the exception raised by an external call, and the
`traceback.format_exc()` text, are carried as strings. -/
def error_detail (e : String) (stack_trace : String) : String :=
  e ++ "\nStack Trace:\n" ++ stack_trace

/-- `retrieve_news` over a fallible store (`similarity_search` may raise,
e.g. when the index is unavailable); the exception text propagates. -/
def retrieve_news_e (store : String → Option Filter → Nat → Except String (List StoreDoc))
    (query : String) (date_filters : DateFilter) (max_results : Nat) :
    Except String (List NewsArticle) :=
  match store query (compile_date_filter date_filters) max_results with
  | Except.error e => Except.error e
  | Except.ok results => Except.ok (results.map format_doc)

/-- `POST /api/retrieval` (app.py lines 77-94). `extracted` is the
(abstracted) extraction outcome for `[{"role": "user", "content":
request.query}]`; `store` the fallible vector search; `stack_trace` the
trace text formatted if an exception is caught. -/
def get_retrieval_handler (app_api_key : Option String)
    (headers : List (String × String)) (query : String)
    (extracted : ExtractedIntent)
    (store : String → Option Filter → Nat → Except String (List StoreDoc))
    (stack_trace : String) : HttpOutcome :=
  if api_key_mismatch (get_api_key_header headers) app_api_key then
    ⟨401, "Invalid API Key", Option.none, Option.none, []⟩
  else
    match retrieve_news_e store query extracted.date_filter DEFAULT_MAX_RESULTS with
    | Except.ok articles => ⟨200, "", some articles, Option.none, []⟩
    | Except.error e =>
      ⟨500, error_detail e stack_trace, Option.none, Option.none,
        [⟨query, "ERROR: " ++ error_detail e stack_trace⟩]⟩

/-- Python `str()` of a `{"role": ..., "content": ...}` dict (for
role/content strings without quotes or escapes). -/
def py_repr_message (m : ChatMessage) : String :=
  "\x7b'role': '" ++ m.role ++ "', 'content': '" ++ m.content ++ "'\x7d"

/-- Python `str(request.messages)` as logged by `get_completion`. -/
def py_str_messages (messages : List ChatMessage) : String :=
  "[" ++ String.intercalate ", " (messages.map py_repr_message) ++ "]"

/-- `POST /api/completion` (app.py lines 96-121). `extracted` abstracts
the extraction call on the full transcript; `gen` abstracts the
response-generation model call of `generate_rag_response`. -/
def get_completion_handler (app_api_key : Option String)
    (headers : List (String × String)) (messages : List ChatMessage)
    (extracted : ExtractedIntent)
    (store : String → Option Filter → Nat → Except String (List StoreDoc))
    (gen : List ChatMessage → List NewsArticle → Except String String)
    (stack_trace : String) : HttpOutcome :=
  if api_key_mismatch (get_api_key_header headers) app_api_key then
    ⟨401, "Invalid API Key", Option.none, Option.none, []⟩
  else
    let last_message := last_user_content messages
    match retrieve_news_e store last_message extracted.date_filter DEFAULT_MAX_RESULTS with
    | Except.error e =>
      ⟨500, error_detail e stack_trace, Option.none, Option.none,
        [⟨py_str_messages messages, "ERROR: " ++ error_detail e stack_trace⟩]⟩
    | Except.ok articles =>
      match gen messages articles with
      | Except.error e =>
        ⟨500, error_detail e stack_trace, Option.none, Option.none,
          [⟨py_str_messages messages, "ERROR: " ++ error_detail e stack_trace⟩]⟩
      | Except.ok response => ⟨200, "", Option.none, some response, []⟩

/-! ## Helper values for witnesses -/

/-- A `date_filter` entry list holding a key only when a value is given. -/
def opt_entry (key : String) : Option PyVal → List (String × PyVal)
  | some v => [(key, v)]
  | Option.none => []

/-- A store that returns at most two stub documents, honouring `k`. -/
def demo_store : String → Option Filter → Nat → List StoreDoc :=
  fun _ _ k => List.replicate (min 2 k) ⟨"doc", []⟩

/-! ## Claims -/

/-- C4: for every transcript whose extraction response is not valid JSON
(`json.loads` raises `JSONDecodeError`), `extract_queries_and_date_filters`
returns exactly `{queries: [], date_filter: {}}` with the error marker, and
does not raise. -/
theorem C4_json_failure_fallback (messages : List ChatMessage) :
    extract_queries_and_date_filters messages Option.none
      = Except.ok ⟨PyVal.list [], [], some "JSONDecodeError"⟩ := rfl

/-- C9: the fallback covers only JSON decode failures: a response that is
valid JSON but a JSON array (not an object) makes
`extract_queries_and_date_filters` raise `AttributeError` (from
`.get` on a list), which the `except json.JSONDecodeError` clause does not
catch, instead of returning the empty-defaults shape. -/
theorem C9_non_object_json_raises :
    extract_queries_and_date_filters [] (some (PyVal.list []))
      = Except.error PyErr.attributeError := rfl

/-- C2 is false as stated: extraction copies `gte`/`lte` verbatim without
any date validation, so a field can be materialized with a value that does
not parse as a `YYYY-MM-DD` date ("not-a-date" here). -/
theorem C2_counterexample :
    extract_queries_and_date_filters
        [⟨"user", "news since forever"⟩]
        (some (PyVal.dict [("queries", PyVal.list []),
          ("date_filter", PyVal.dict [("gte", PyVal.str "not-a-date")])]))
      = Except.ok ⟨PyVal.list [], [("gte", PyVal.str "not-a-date")], Option.none⟩
    ∧ parse_date "not-a-date" = Option.none :=
  ⟨rfl, by decide⟩

/-- C2 amended: each of `gte`/`lte` is present in the extraction result
exactly when it is present in the model's `date_filter` object, with its
value copied verbatim and unvalidated (date validation happens later, in
`retrieve_news`). -/
theorem C2_amended_verbatim_bounds (messages : List ChatMessage) (q : PyVal)
    (gv lv : Option PyVal) :
    extract_queries_and_date_filters messages
        (some (PyVal.dict [("queries", q),
          ("date_filter", PyVal.dict (opt_entry "gte" gv ++ opt_entry "lte" lv))]))
      = Except.ok ⟨q, opt_entry "gte" gv ++ opt_entry "lte" lv, Option.none⟩ := by
  cases gv <;> cases lv <;> rfl

/-- C3: in `retrieve_news`'s filter-compilation step, an unparseable `gte`
with a parseable `lte` compiles to a filter constraining only `lte`,
symmetrically for the other side, and two unparseable bounds compile to no
filter at all (`None`), not an empty filter. -/
theorem C3_filter_compilation_drops_invalid_bounds :
    (∀ gs ls d, parse_date gs = Option.none → parse_date ls = some d →
      compile_date_filter ⟨some gs, some ls⟩
        = some ⟨[⟨"metadata.date", ⟨Option.none, some d⟩⟩]⟩)
    ∧ (∀ gs ls d, parse_date gs = some d → parse_date ls = Option.none →
      compile_date_filter ⟨some gs, some ls⟩
        = some ⟨[⟨"metadata.date", ⟨some d, Option.none⟩⟩]⟩)
    ∧ (∀ gs ls, parse_date gs = Option.none → parse_date ls = Option.none →
      compile_date_filter ⟨some gs, some ls⟩ = Option.none) := by
  refine ⟨?_, ?_, ?_⟩ <;> intro gs ls <;> intros <;>
    simp_all [compile_date_filter, DateFilter.nonEmpty]

/-- C3 witness: a concrete invalid/valid bound pair, its mirror image, and
a fully invalid filter. -/
theorem C3_witness :
    compile_date_filter ⟨some "garbage", some "2024-01-01"⟩
      = some ⟨[⟨"metadata.date", ⟨Option.none, some ⟨2024, 1, 1⟩⟩⟩]⟩
    ∧ compile_date_filter ⟨some "2024-01-01", some "garbage"⟩
      = some ⟨[⟨"metadata.date", ⟨some ⟨2024, 1, 1⟩, Option.none⟩⟩]⟩
    ∧ compile_date_filter ⟨some "2024-13-01", some "garbage"⟩ = Option.none :=
  ⟨C3_filter_compilation_drops_invalid_bounds.1 "garbage" "2024-01-01"
      ⟨2024, 1, 1⟩ (by decide) (by decide),
   C3_filter_compilation_drops_invalid_bounds.2.1 "2024-01-01" "garbage"
      ⟨2024, 1, 1⟩ (by decide) (by decide),
   C3_filter_compilation_drops_invalid_bounds.2.2 "2024-13-01" "garbage"
      (by decide) (by decide)⟩

/-- C5: `retrieve_news` returns at most `max_results` documents whenever
the underlying store honours its `k` parameter, and calls without
`max_results` use the default of 5. -/
theorem C5_result_count_bounded
    (store : String → Option Filter → Nat → List StoreDoc)
    (h : ∀ q f k, (store q f k).length ≤ k) :
    (∀ query date_filters k,
      (retrieve_news store query date_filters k).length ≤ k)
    ∧ ∀ query date_filters,
      retrieve_news_default store query date_filters
        = retrieve_news store query date_filters 5 := by
  constructor
  · intro query date_filters k
    simpa [retrieve_news] using h query (compile_date_filter date_filters) k
  · intro query date_filters
    rfl

/-- C5 witness: a store capped at two stub documents, searched with
`k = 3` and with the default `k`. -/
theorem C5_witness :
    (retrieve_news demo_store "ai news" ⟨Option.none, Option.none⟩ 3).length ≤ 3
    ∧ retrieve_news_default demo_store "ai news" ⟨Option.none, Option.none⟩
      = retrieve_news demo_store "ai news" ⟨Option.none, Option.none⟩ 5 := by
  have h := C5_result_count_bounded demo_store
    (fun q f k => by simp [demo_store])
  exact ⟨h.1 "ai news" ⟨Option.none, Option.none⟩ 3,
    h.2 "ai news" ⟨Option.none, Option.none⟩⟩

/-- C1 is false as stated: in the `/api/completion` handler the query
passed to `retrieve_news` is always the last user message, even when the
extracted query list is non-empty — here the transcript is
`[{user, "hello"}]`, the extracted queries are `["breaking", "news"]`, and
the effective query is `"hello"`, not the space-join `"breaking news"`. -/
theorem C1_counterexample :
    (["breaking", "news"] : List String) ≠ []
    ∧ get_completion_search_query [⟨"user", "hello"⟩]
        ⟨["breaking", "news"], ⟨Option.none, Option.none⟩⟩
      ≠ String.intercalate " " ["breaking", "news"] :=
  ⟨by decide, by decide⟩

/-- C1 amended: `respond` uses the space-joined extracted queries when the
list is non-empty and otherwise falls back to the current message, which
is the rebuilt transcript's most recent user-authored message; the
`/api/completion` handler instead always searches with the transcript's
most recent user-authored message, ignoring the extracted queries. -/
theorem C1_amended_effective_query :
    (∀ messages extracted, get_completion_search_query messages extracted
        = last_user_content messages)
    ∧ (∀ message extracted, ExtractedIntent.queries extracted ≠ [] →
        respond_search_query message extracted
          = String.intercalate " " extracted.queries)
    ∧ (∀ message extracted, ExtractedIntent.queries extracted = [] →
        respond_search_query message extracted = message)
    ∧ (∀ history message,
        last_user_content (respond_messages history message) = message) := by
  refine ⟨fun _ _ => rfl, ?_, ?_, ?_⟩
  · intro message extracted h
    simp [respond_search_query, List.isEmpty_iff, h]
  · intro message extracted h
    simp [respond_search_query, List.isEmpty_iff, h]
  · intro history message
    simp [last_user_content, respond_messages, List.reverse_append]

/-- C1 amended witness: both branches of `respond`'s query selection and
the fallback's agreement with the last user message, at concrete inputs. -/
theorem C1_amended_witness :
    respond_search_query "latest news" ⟨["ai", "chips"], ⟨Option.none, Option.none⟩⟩
      = String.intercalate " " ["ai", "chips"]
    ∧ respond_search_query "latest news" ⟨[], ⟨Option.none, Option.none⟩⟩
      = "latest news"
    ∧ last_user_content (respond_messages [("hi", "hello!")] "latest news")
      = "latest news" :=
  ⟨C1_amended_effective_query.2.1 "latest news" ⟨["ai", "chips"], ⟨Option.none, Option.none⟩⟩
      (by decide),
   C1_amended_effective_query.2.2.1 "latest news" ⟨[], ⟨Option.none, Option.none⟩⟩ rfl,
   C1_amended_effective_query.2.2.2 [("hi", "hello!")] "latest news"⟩

/-- `concat_all` distributes over list append. -/
theorem concat_all_append (a b : List String) :
    concat_all (a ++ b) = concat_all a ++ concat_all b := by
  induction a with
  | nil => simp [concat_all, String.empty_append]
  | cons s rest ih => simp [concat_all, ih, String.append_assoc]

/-- The context-building loop over any enumeration suffix appends the
concatenation of the per-document entries to the accumulator. -/
theorem build_context_go (l : List NewsArticle) :
    ∀ (n : Nat) (acc : String),
      (l.enumFrom n).foldl (fun context p => context ++ source_entry p.1 p.2) acc
        = acc ++ concat_all ((l.enumFrom n).map (fun p => source_entry p.1 p.2)) := by
  induction l with
  | nil => intro n acc; simp [List.enumFrom, concat_all, String.append_empty]
  | cons x xs ih =>
    intro n acc
    simp [List.enumFrom_cons, concat_all, ih (n + 1), String.append_assoc]

/-- C6: the context block of `generate_rag_response` is exactly the
concatenation, in input order, of one `"Source i: {title}\nURL: {url}"`
entry per document with 1-based index `i`; appending a document appends
its entry, indexed by the previous length, so the enumeration is stable
and matches the order the documents were returned in. -/
theorem C6_context_enumerates_in_order :
    (∀ retrieved_news : List NewsArticle,
      build_context retrieved_news
        = concat_all ((retrieved_news.enum).map (fun p => source_entry p.1 p.2)))
    ∧ (∀ (retrieved_news : List NewsArticle) (d : NewsArticle),
      build_context (retrieved_news ++ [d])
        = build_context retrieved_news ++ source_entry retrieved_news.length d) := by
  have hmain : ∀ docs : List NewsArticle,
      build_context docs = concat_all ((docs.enum).map (fun p => source_entry p.1 p.2)) := by
    intro docs
    simpa [build_context, List.enum, String.empty_append] using build_context_go docs 0 ""
  refine ⟨hmain, fun docs d => ?_⟩
  rw [hmain, hmain, List.enum_append]
  simp [List.enumFrom, concat_all_append, concat_all, String.append_empty]

/-- C10: every article returned by `retrieve_news` comes from a store
document in order-preserving correspondence; its `url` is the stored
metadata url when present and `"#"` otherwise, its `date` is the stored
metadata date when present and `"Unknown date"` otherwise, and both fields
are always present (the `NewsArticle` record has no optional fields). -/
theorem C10_article_fields_defaulting
    (store : String → Option Filter → Nat → List StoreDoc)
    (query : String) (date_filters : DateFilter) (k : Nat)
    (a : NewsArticle)
    (ha : a ∈ retrieve_news store query date_filters k) :
    ∃ doc ∈ store query (compile_date_filter date_filters) k,
      a = format_doc doc
      ∧ a.title = doc.page_content
      ∧ (∀ u, lookup_meta doc.metadata "url" = some u → a.url = u)
      ∧ (lookup_meta doc.metadata "url" = Option.none → a.url = "#")
      ∧ (∀ dt, lookup_meta doc.metadata "date" = some dt → a.date = dt)
      ∧ (lookup_meta doc.metadata "date" = Option.none → a.date = "Unknown date") := by
  simp only [retrieve_news, List.mem_map] at ha
  obtain ⟨doc, hdoc, rfl⟩ := ha
  refine ⟨doc, hdoc, rfl, rfl, ?_, ?_, ?_, ?_⟩
  · intro u hu; simp [format_doc, hu]
  · intro hu; simp [format_doc, hu]
  · intro dt hdt; simp [format_doc, hdt]
  · intro hdt; simp [format_doc, hdt]

/-- A store returning one document without a url and one without a date. -/
def two_doc_store : String → Option Filter → Nat → List StoreDoc :=
  fun _ _ _ => [⟨"t1", [("date", "2024-01-01")]⟩, ⟨"t2", [("url", "https://e.x/a")]⟩]

/-- C10 witness: the first document of `two_doc_store` is formatted with
the `"#"` url default and its stored date. -/
theorem C10_witness :
    ∃ doc ∈ two_doc_store "q" (compile_date_filter ⟨Option.none, Option.none⟩) 5,
      (⟨"t1", "#", "2024-01-01"⟩ : NewsArticle) = format_doc doc
      ∧ NewsArticle.title ⟨"t1", "#", "2024-01-01"⟩ = doc.page_content
      ∧ (∀ u, lookup_meta doc.metadata "url" = some u →
          NewsArticle.url ⟨"t1", "#", "2024-01-01"⟩ = u)
      ∧ (lookup_meta doc.metadata "url" = Option.none →
          NewsArticle.url ⟨"t1", "#", "2024-01-01"⟩ = "#")
      ∧ (∀ dt, lookup_meta doc.metadata "date" = some dt →
          NewsArticle.date ⟨"t1", "#", "2024-01-01"⟩ = dt)
      ∧ (lookup_meta doc.metadata "date" = Option.none →
          NewsArticle.date ⟨"t1", "#", "2024-01-01"⟩ = "Unknown date") :=
  C10_article_fields_defaulting two_doc_store "q" ⟨Option.none, Option.none⟩ 5
    ⟨"t1", "#", "2024-01-01"⟩ (by decide)

/-- A store whose search succeeds with no results. -/
def empty_store_e : String → Option Filter → Nat → Except String (List StoreDoc) :=
  fun _ _ _ => Except.ok []

/-- C7 is false as stated: a request with no `x-api-key` header is
accepted (status 200, not 401) when `APP_API_KEY` is configured as the
empty string, because the missing header defaults to `""` and compares
equal to the secret. -/
theorem C7_counterexample :
    (([] : List (String × String)).find? (fun p => p.1 == "x-api-key") = Option.none)
    ∧ (get_retrieval_handler (some "") [] "q" ⟨[], ⟨Option.none, Option.none⟩⟩
        empty_store_e "trace").status = 200 :=
  ⟨rfl, rfl⟩

/-- C7 amended: on either endpoint, a request is rejected with 401, with
no log write and no handler logic run, exactly when the presented
`x-api-key` value (the empty string when the header is missing) differs
from the configured `APP_API_KEY` (every value differs when the variable
is unset); when they coincide — including a missing header against an
empty-string secret — the request is not answered with 401. -/
theorem C7_amended_auth_gate :
    ∀ (app_api_key : Option String) (headers : List (String × String))
      (query : String) (messages : List ChatMessage)
      (extracted : ExtractedIntent)
      (store : String → Option Filter → Nat → Except String (List StoreDoc))
      (gen : List ChatMessage → List NewsArticle → Except String String)
      (stack_trace : String),
      (api_key_mismatch (get_api_key_header headers) app_api_key = true →
        get_retrieval_handler app_api_key headers query extracted store stack_trace
          = ⟨401, "Invalid API Key", Option.none, Option.none, []⟩
        ∧ get_completion_handler app_api_key headers messages extracted store gen stack_trace
          = ⟨401, "Invalid API Key", Option.none, Option.none, []⟩)
      ∧ (api_key_mismatch (get_api_key_header headers) app_api_key = false →
        (get_retrieval_handler app_api_key headers query extracted store stack_trace).status ≠ 401
        ∧ (get_completion_handler app_api_key headers messages extracted store gen
            stack_trace).status ≠ 401) := by
  intro app_api_key headers query messages extracted store gen stack_trace
  constructor
  · intro h
    exact ⟨by simp [get_retrieval_handler, h], by simp [get_completion_handler, h]⟩
  · intro h
    constructor
    · cases hres : retrieve_news_e store query extracted.date_filter DEFAULT_MAX_RESULTS with
      | error e => simp [get_retrieval_handler, h, hres]
      | ok arts => simp [get_retrieval_handler, h, hres]
    · cases hres : retrieve_news_e store (last_user_content messages) extracted.date_filter
          DEFAULT_MAX_RESULTS with
      | error e => simp [get_completion_handler, h, hres]
      | ok arts =>
        cases hgen : gen messages arts with
        | error e => simp [get_completion_handler, h, hres, hgen]
        | ok r => simp [get_completion_handler, h, hres, hgen]

/-- C7 amended witness: a request with no headers against the secret
`"secret"` is rejected on both endpoints with 401 and an empty log. -/
theorem C7_amended_witness :
    get_retrieval_handler (some "secret") [] "q" ⟨[], ⟨Option.none, Option.none⟩⟩
        empty_store_e "trace"
      = ⟨401, "Invalid API Key", Option.none, Option.none, []⟩
    ∧ get_completion_handler (some "secret") [] [] ⟨[], ⟨Option.none, Option.none⟩⟩
        empty_store_e (fun _ _ => Except.ok "ok") "trace"
      = ⟨401, "Invalid API Key", Option.none, Option.none, []⟩ :=
  (C7_amended_auth_gate (some "secret") [] "q" [] ⟨[], ⟨Option.none, Option.none⟩⟩
      empty_store_e (fun _ _ => Except.ok "ok") "trace").1 (by decide)

/-- C8: when the vector search (or, on `/api/completion`, the generation
call) fails with exception text `e`, the handler answers 500 with a detail
equal to the exception text followed by the stack trace, first appending a
log record whose answer carries the `"ERROR: "` prefix and whose question
is the request's query text (`str(request.messages)` on the completion
endpoint); no response body is produced, so the failure is never turned
into an empty result set. -/
theorem C8_error_propagation :
    ∀ (app_api_key : Option String) (headers : List (String × String))
      (query : String) (messages : List ChatMessage)
      (extracted : ExtractedIntent)
      (store : String → Option Filter → Nat → Except String (List StoreDoc))
      (gen : List ChatMessage → List NewsArticle → Except String String)
      (stack_trace e : String),
      api_key_mismatch (get_api_key_header headers) app_api_key = false →
      (store query (compile_date_filter extracted.date_filter) DEFAULT_MAX_RESULTS
          = Except.error e →
        get_retrieval_handler app_api_key headers query extracted store stack_trace
          = ⟨500, e ++ "\nStack Trace:\n" ++ stack_trace, Option.none, Option.none,
              [⟨query, "ERROR: " ++ (e ++ "\nStack Trace:\n" ++ stack_trace)⟩]⟩)
      ∧ (store (last_user_content messages) (compile_date_filter extracted.date_filter)
            DEFAULT_MAX_RESULTS = Except.error e →
        get_completion_handler app_api_key headers messages extracted store gen stack_trace
          = ⟨500, e ++ "\nStack Trace:\n" ++ stack_trace, Option.none, Option.none,
              [⟨py_str_messages messages,
                "ERROR: " ++ (e ++ "\nStack Trace:\n" ++ stack_trace)⟩]⟩)
      ∧ (∀ results, store (last_user_content messages)
            (compile_date_filter extracted.date_filter) DEFAULT_MAX_RESULTS
            = Except.ok results →
          gen messages (results.map format_doc) = Except.error e →
        get_completion_handler app_api_key headers messages extracted store gen stack_trace
          = ⟨500, e ++ "\nStack Trace:\n" ++ stack_trace, Option.none, Option.none,
              [⟨py_str_messages messages,
                "ERROR: " ++ (e ++ "\nStack Trace:\n" ++ stack_trace)⟩]⟩) := by
  intro app_api_key headers query messages extracted store gen stack_trace e hkey
  refine ⟨?_, ?_, ?_⟩
  · intro hstore
    simp [get_retrieval_handler, retrieve_news_e, hkey, hstore, error_detail,
      String.append_assoc]
  · intro hstore
    simp [get_completion_handler, retrieve_news_e, hkey, hstore, error_detail,
      String.append_assoc]
  · intro results hstore hgen
    simp [get_completion_handler, retrieve_news_e, hkey, hstore, hgen, error_detail,
      String.append_assoc]

/-- A store whose search always fails, as with an unreachable index. -/
def failing_store_e : String → Option Filter → Nat → Except String (List StoreDoc) :=
  fun _ _ _ => Except.error "index unavailable"

/-- C8 witness: a failing search on both endpoints with a matching key
yields the 500 outcome with the logged `"ERROR: "` record. -/
theorem C8_witness :
    get_retrieval_handler (some "k") [("x-api-key", "k")] "ai news"
        ⟨[], ⟨Option.none, Option.none⟩⟩ failing_store_e "TRACE"
      = ⟨500, "index unavailable" ++ "\nStack Trace:\n" ++ "TRACE", Option.none, Option.none,
          [⟨"ai news", "ERROR: " ++ ("index unavailable" ++ "\nStack Trace:\n" ++ "TRACE")⟩]⟩
    ∧ get_completion_handler (some "k") [("x-api-key", "k")] [⟨"user", "ai news"⟩]
        ⟨[], ⟨Option.none, Option.none⟩⟩ failing_store_e (fun _ _ => Except.ok "ok") "TRACE"
      = ⟨500, "index unavailable" ++ "\nStack Trace:\n" ++ "TRACE", Option.none, Option.none,
          [⟨py_str_messages [⟨"user", "ai news"⟩],
            "ERROR: " ++ ("index unavailable" ++ "\nStack Trace:\n" ++ "TRACE")⟩]⟩ := by
  have h := C8_error_propagation (some "k") [("x-api-key", "k")] "ai news"
    [⟨"user", "ai news"⟩] ⟨[], ⟨Option.none, Option.none⟩⟩ failing_store_e
    (fun _ _ => Except.ok "ok") "TRACE" "index unavailable" (by decide)
  exact ⟨h.1 rfl, h.2.1 rfl⟩

end NewsRag
